import Mathlib

/-!
Shallow embedding of the procedural isometric pyramid renderer
(`generateProceduralPyramid` and its helpers `hexToRgb`, `shadeColor`,
`drawCube`) together with the enums it consumes from `types.ts`.

Numbers are modelled as rationals (JS numbers at the magnitudes used here),
`Math.floor` as `Int.floor`, `Math.random()` as an explicit stream
`rand : Nat → Rat` consumed one value per call in draw order, and the
stateful 2D canvas as a list of emitted drawing commands.  The canvas
stroke style and line width are canvas state: they are set once before the
top face is stroked and persist for the right and left faces, which the
embedding reflects by giving all three face commands the same stroke
color and width.
-/

namespace PyraGen

/-- `TilePattern` from `types.ts`. -/
inductive TilePattern where
  | MARBLE
  | WOOD
  | STONE
  | GLASS
  | METAL
  | NEON
  | MOSAIC
  | CERAMIC
deriving DecidableEq, Repr

/-- `PyramidBase` from `types.ts`. -/
inductive PyramidBase where
  | SQUARE
  | TRIANGULAR
deriving DecidableEq, Repr

/-- The fields of `GenerationParams` consumed by the renderer. -/
structure Params where
  levels : Nat
  baseSize : Nat
  tileColor : String
  pattern : TilePattern
  baseType : PyramidBase
deriving DecidableEq, Repr

/-- An RGB triple as held in the renderer between decoding and shading
(channels are rationals because stone noise makes them non-integral). -/
structure Rgb where
  r : Rat
  g : Rat
  b : Rat
deriving DecidableEq, Repr

/-- Value of one hex digit, matching the character class of the regex
in `hexToRgb` under the case-insensitive flag. -/
def hexDigitVal (c : Char) : Option Nat :=
  if '0' ≤ c ∧ c ≤ '9' then some (c.toNat - '0'.toNat)
  else if 'a' ≤ c ∧ c ≤ 'f' then some (c.toNat - 'a'.toNat + 10)
  else if 'A' ≤ c ∧ c ≤ 'F' then some (c.toNat - 'A'.toNat + 10)
  else none

/-- Parse exactly six hex digits into three byte values. -/
def parseHex6 : List Char → Option (Nat × Nat × Nat)
  | [c1, c2, c3, c4, c5, c6] =>
    match hexDigitVal c1, hexDigitVal c2, hexDigitVal c3,
          hexDigitVal c4, hexDigitVal c5, hexDigitVal c6 with
    | some h1, some h2, some h3, some h4, some h5, some h6 =>
      some (16 * h1 + h2, 16 * h3 + h4, 16 * h5 + h6)
    | _, _, _, _, _, _ => none
  | _ => none

/-- The anchored regex match of `hexToRgb`: an optional leading hash,
then exactly six case-insensitive hex digits, nothing else. -/
def parseHexColor (hex : String) : Option (Nat × Nat × Nat) :=
  match hex.toList with
  | '#' :: rest => parseHex6 rest
  | cs => parseHex6 cs

/-- `hexToRgb` from the source: decodes the color, or falls back to the
fixed grey triple (100,100,100) when the regex does not match. -/
def hexToRgb (hex : String) : Rgb :=
  match parseHexColor hex with
  | some (r, g, b) => ⟨r, g, b⟩
  | none => ⟨100, 100, 100⟩

/-- One channel of `shadeColor` from the source:
`Math.min(255, Math.max(0, Math.floor(c * (1 + percent / 100))))`. -/
def shadeChannel (c percent : Rat) : Int :=
  min 255 (max 0 (Int.floor (c * (1 + percent / 100))))

/-- `shadeColor` from the source applied to a triple; the `rgb(R,G,B)`
fill-style string is modelled as the integer triple it carries. -/
def shadeRgb (r g b percent : Rat) : Int × Int × Int :=
  (shadeChannel r percent, shadeChannel g percent, shadeChannel b percent)

/-- The shading law as the spec words it: each channel is
`clamp(0,255, floor(c * (1 + p/100)))`. -/
def specShadeChannel (c p : Rat) : Int :=
  max 0 (min 255 (Int.floor (c * (1 + p / 100))))

/-- Canvas edge length in logical pixels (`size = 1024`). -/
def canvasSize : Rat := 1024

/-- `scale = Math.min(size / (baseSize * 4), 60)`. -/
def scale (baseSize : Rat) : Rat := min (canvasSize / (baseSize * 4)) 60

/-- `tileW = scale * 2`. -/
def tileW (baseSize : Rat) : Rat := scale baseSize * 2

/-- `tileH = scale` (isometric squash). -/
def tileH (baseSize : Rat) : Rat := scale baseSize

/-- `centerX = size / 2`. -/
def centerX : Rat := canvasSize / 2

/-- `centerY = size / 2 + (baseSize * tileH) / 2`. -/
def centerY (baseSize : Rat) : Rat := canvasSize / 2 + baseSize * tileH baseSize / 2

/-- Isometric screen x of grid point (x,y):
`isoX = (x - y) * tileW * 0.5 + centerX`. -/
def isoX (baseSize x y : Rat) : Rat := (x - y) * tileW baseSize * (1 / 2) + centerX

/-- Isometric screen y of grid point (x,y) at height z:
`isoY = (x + y) * tileH * 0.5 - z * tileH * 0.85 + centerY`. -/
def isoY (baseSize x y : Rat) (z : Nat) : Rat :=
  (x + y) * tileH baseSize * (1 / 2) - (z : Rat) * tileH baseSize * (85 / 100) + centerY baseSize

/-- A drawing command emitted to the canvas: the background gradient
fill, or one filled-and-stroked face polygon. -/
inductive Cmd where
  | bg (top bottom : String)
  | face (vertices : List (Rat × Rat)) (fill : Int × Int × Int)
      (stroke : Int × Int × Int) (lineWidth : Rat)
deriving DecidableEq, Repr

/-- Vertex list of a command (empty for the background fill). -/
def cmdVertices : Cmd → List (Rat × Rat)
  | Cmd.face v _ _ _ => v
  | Cmd.bg _ _ => []

/-- Fill color of a face command. -/
def faceFill : Cmd → Int × Int × Int
  | Cmd.face _ f _ _ => f
  | Cmd.bg _ _ => (0, 0, 0)

/-- Stroke color of a face command. -/
def faceStroke : Cmd → Int × Int × Int
  | Cmd.face _ _ s _ => s
  | Cmd.bg _ _ => (0, 0, 0)

/-- Line width of a face command. -/
def faceWidth : Cmd → Rat
  | Cmd.face _ _ _ w => w
  | Cmd.bg _ _ => 0

/-- `drawCube` from the source: emits the top, right and left faces in
that order.  Fill styles are set per face (+20, -15, -5); the stroke
style is set once, to `shadeColor(r,g,b,-10)`, before the top stroke and
persists through the right and left strokes, as does `lineWidth = 1`. -/
def drawCube (baseSize x y : Rat) (z : Nat) (r g b : Rat) : List Cmd :=
  let iX := isoX baseSize x y
  let iY := isoY baseSize x y z
  let tW := tileW baseSize
  let tH := tileH baseSize
  let strokeC := shadeRgb r g b (-10)
  [ Cmd.face
      [(iX, iY - tH), (iX + tW * (1 / 2), iY - tH * (3 / 2)),
       (iX, iY - tH * 2), (iX - tW * (1 / 2), iY - tH * (3 / 2))]
      (shadeRgb r g b 20) strokeC 1,
    Cmd.face
      [(iX, iY - tH), (iX + tW * (1 / 2), iY - tH * (3 / 2)),
       (iX + tW * (1 / 2), iY - tH * (1 / 2)), (iX, iY)]
      (shadeRgb r g b (-15)) strokeC 1,
    Cmd.face
      [(iX, iY - tH), (iX - tW * (1 / 2), iY - tH * (3 / 2)),
       (iX - tW * (1 / 2), iY - tH * (1 / 2)), (iX, iY)]
      (shadeRgb r g b (-5)) strokeC 1 ]

/-- `currentLayerSize = Math.max(1, baseSize - (z * 2))`. -/
def currentLayerSize (baseSize : Int) (z : Nat) : Int :=
  max 1 (baseSize - 2 * (z : Int))

/-- The layer indices the z-loop actually processes: `takeWhile` models
the `break` that fires at the first z with
`currentLayerSize <= 0 && z > 0`. -/
def layersDrawn (levels : Nat) (baseSize : Int) : List Nat :=
  (List.range levels).takeWhile fun z =>
    !(decide (currentLayerSize baseSize z ≤ 0) && decide (0 < z))

/-- `offset = (baseSize - currentLayerSize) / 2` (JS division, may be
fractional). -/
def layerOffset (baseSize : Int) (z : Nat) : Rat :=
  ((baseSize : Rat) - (currentLayerSize baseSize z : Rat)) / 2

/-- The (x,y) pairs of one layer in draw order: x outer, y inner, each
ranging over `currentLayerSize`, with the triangular mask
`if (x > y) continue` applied when the base is triangular. -/
def layerTiles (baseSize : Int) (bt : PyramidBase) (z : Nat) : List (Nat × Nat) :=
  let n := (currentLayerSize baseSize z).toNat
  (List.range n).flatMap fun x =>
    (List.range n).flatMap fun y =>
      if bt = PyramidBase.TRIANGULAR ∧ x > y then [] else [(x, y)]

/-- All tiles of the whole render in draw order, as (z, x, y). -/
def allTiles (p : Params) : List (Nat × Nat × Nat) :=
  (layersDrawn p.levels p.baseSize).flatMap fun z =>
    (layerTiles p.baseSize p.baseType z).map fun xy => (z, xy.1, xy.2)

/-- Per-tile color: base RGB, with the red channel raised by `z * 10`
(capped at 255) for Glowing Neon, or the single noise value
`(Math.random() - 0.5) * 20` added to all three channels for Rough
Stone.  `k` is the tile ordinal, which indexes the random stream because
each stone tile performs exactly one `Math.random()` call. -/
def tileRgb (base : Rgb) (pat : TilePattern) (rand : Nat → Rat) (k z : Nat) : Rgb :=
  if pat = TilePattern.NEON then
    { base with r := min 255 (base.r + (z : Rat) * 10) }
  else if pat = TilePattern.STONE then
    let noise := (rand k - 1 / 2) * 20
    ⟨base.r + noise, base.g + noise, base.b + noise⟩
  else base

/-- Modelled from the spec: the stone-tile coloring as the spec words
it — an independent random offset in [-10,10] added to each of R, G, B,
i.e. three independent draws per tile, one per channel.  This is the
comparison point for the refinement claim about per-channel noise; the
source (`tileRgb`) performs a single draw shared by the channels. -/
def specStoneTileRgb (base : Rgb) (rand : Nat → Rat) (k : Nat) : Rgb :=
  ⟨base.r + (rand (3 * k) - 1 / 2) * 20,
   base.g + (rand (3 * k + 1) - 1 / 2) * 20,
   base.b + (rand (3 * k + 2) - 1 / 2) * 20⟩

/-- The background gradient: dark navy-to-slate when the document root
has the dark class, near-white-to-light-slate otherwise. -/
def bgCmd (isDark : Bool) : Cmd :=
  if isDark then Cmd.bg ("#0f172a") ("#1e293b")
  else Cmd.bg ("#f8fafc") ("#e2e8f0")

/-- The full draw-command sequence of one invocation: background first,
then every tile as three faces via `drawCube`, bottom layer to top,
x outer, y inner, at grid coordinates (x+offset, y+offset, z). -/
def renderCommands (p : Params) (isDark : Bool) (rand : Nat → Rat) : List Cmd :=
  bgCmd isDark ::
    (allTiles p).enum.flatMap fun kt =>
      drawCube p.baseSize
        ((kt.2.2.1 : Rat) + layerOffset p.baseSize kt.2.1)
        ((kt.2.2.2 : Rat) + layerOffset p.baseSize kt.2.1)
        kt.2.1
        (tileRgb (hexToRgb p.tileColor) p.pattern rand kt.1 kt.2.1).r
        (tileRgb (hexToRgb p.tileColor) p.pattern rand kt.1 kt.2.1).g
        (tileRgb (hexToRgb p.tileColor) p.pattern rand kt.1 kt.2.1).b

/-- `canvas.toDataURL('image/png')`: a deterministic encoding of the
canvas content (which the command list determines). -/
def encodePng (cs : List Cmd) : String :=
  "data:image/png;base64," ++ reprStr cs

/-- Result of one invocation: the resolved string and the commands that
reached the canvas. -/
structure RenderResult where
  output : String
  drawn : List Cmd
deriving DecidableEq, Repr

/-- `generateProceduralPyramid`: if `getContext` returns null, resolve
the empty string having drawn nothing; otherwise draw everything and
resolve the data URL.  The embedding is a total function, matching the
source, whose promise executor contains no `throw` and always calls
`resolve`. -/
def generateProceduralPyramid (ctxAvail : Bool) (p : Params) (isDark : Bool)
    (rand : Nat → Rat) : RenderResult :=
  if ctxAvail then
    let cs := renderCommands p isDark rand
    ⟨encodePng cs, cs⟩
  else ⟨(""), []⟩

/-! Helper lemmas shared by several claims. -/

/-- The clamped layer size is always at least 1. -/
lemma currentLayerSize_pos (baseSize : Int) (z : Nat) : 1 ≤ currentLayerSize baseSize z :=
  le_max_left 1 _

/-- Tile coloring reads the random stream only for the Rough Stone
pattern. -/
lemma tileRgb_rand_free (base : Rgb) (pat : TilePattern) (r1 r2 : Nat → Rat) (k z : Nat)
    (h : pat ≠ TilePattern.STONE) :
    tileRgb base pat r1 k z = tileRgb base pat r2 k z := by
  rcases pat <;> simp_all [tileRgb]

/-! Claims. -/

/-- Claim C1, as stated, is false: with levels = 5 and baseSize = 5 the
first z > 0 with baseSize - 2z ≤ 0 is z = 3, yet layers 3 and 4 are both
still processed (each drawing one tile), because the break tests the
already-clamped `currentLayerSize`, which is never ≤ 0. -/
theorem C1_counterexample :
    (5 : Int) - 2 * 3 ≤ 0 ∧ 0 < 3
    ∧ 3 ∈ layersDrawn 5 5 ∧ 4 ∈ layersDrawn 5 5
    ∧ (layerTiles 5 PyramidBase.SQUARE 3).length = 1 := by decide

/-- Claim C1 amended: the break `currentLayerSize <= 0 && z > 0` is dead
code, since `currentLayerSize = max(1, baseSize - 2z)` is always ≥ 1;
the z-loop therefore never halts early and processes every
z in [0, levels). -/
theorem C1_no_early_halt (levels : Nat) (baseSize : Int) :
    layersDrawn levels baseSize = List.range levels
    ∧ ∀ z : Nat, 1 ≤ currentLayerSize baseSize z := by
  constructor
  · unfold layersDrawn
    rw [List.takeWhile_eq_self_iff]
    intro z _
    have h1 : 1 ≤ currentLayerSize baseSize z := currentLayerSize_pos baseSize z
    simp
    omega
  · intro z
    exact currentLayerSize_pos baseSize z

/-- Claim C2, as stated, is false: the code makes one `Math.random()`
call per stone tile and adds that single offset to all three channels,
so on the stream n ↦ n/4 it disagrees with the spec-modelled
three-draws-per-tile coloring already at the first tile. -/
theorem C2_counterexample :
    tileRgb ⟨100, 100, 100⟩ TilePattern.STONE (fun n => (n : Rat) / 4) 0 0
      ≠ specStoneTileRgb ⟨100, 100, 100⟩ (fun n => (n : Rat) / 4) 0 := by
  simp [tileRgb, specStoneTileRgb]
  norm_num

/-- Claim C2 amended: each stone tile draws one random value u and adds
the single offset (u - 1/2)·20 to R, G and B alike, so the three channel
deltas are always equal; for u ∈ [0,1) the shared offset lies in
[-10,10); and the tile geometry (counts and positions) is identical for
any two random streams. -/
theorem C2_stone_single_shared_draw (base : Rgb) (rand : Nat → Rat) (k z : Nat) :
    ((tileRgb base TilePattern.STONE rand k z).r - base.r
        = (tileRgb base TilePattern.STONE rand k z).g - base.g
      ∧ (tileRgb base TilePattern.STONE rand k z).g - base.g
        = (tileRgb base TilePattern.STONE rand k z).b - base.b)
    ∧ (0 ≤ rand k → rand k < 1 →
        -10 ≤ (tileRgb base TilePattern.STONE rand k z).r - base.r
          ∧ (tileRgb base TilePattern.STONE rand k z).r - base.r < 10)
    ∧ ∀ (p : Params) (isDark : Bool) (r1 r2 : Nat → Rat),
        (renderCommands p isDark r1).map cmdVertices
          = (renderCommands p isDark r2).map cmdVertices := by
  refine ⟨?_, ?_, ?_⟩
  · simp [tileRgb]
  · intro h0 h1
    simp only [tileRgb, reduceCtorEq, if_false, if_true, reduceIte]
    constructor <;> nlinarith
  · intro p isDark r1 r2
    unfold renderCommands
    simp only [List.map_cons]
    congr 1
    rw [List.map_flatMap, List.map_flatMap]
    congr 1

/-- Witness for C2: at the constant stream 0 the shared stone offset of
the first tile is exactly -10, inside [-10, 10). -/
theorem C2_stone_single_shared_draw_witness :
    -10 ≤ (tileRgb (Rgb.mk 100 100 100) TilePattern.STONE (fun _ => 0) 0 0).r
        - (Rgb.mk 100 100 100).r
    ∧ (tileRgb (Rgb.mk 100 100 100) TilePattern.STONE (fun _ => 0) 0 0).r
        - (Rgb.mk 100 100 100).r < 10 :=
  (C2_stone_single_shared_draw (Rgb.mk 100 100 100) (fun _ => 0) 0 0).2.1
    (by norm_num) (by norm_num)

/-- Claim C3: with a Square base, layer z draws exactly
`currentLayerSize(z)²` tiles, where `currentLayerSize(z) =
max(1, baseSize - 2z)`; in particular levels = 5, baseSize = 5 yields the
layer counts 25, 9, 1, 1, 1. -/
theorem C3_square_layer_counts :
    (∀ (baseSize : Int) (z : Nat),
        ((layerTiles baseSize PyramidBase.SQUARE z).length : Int)
          = currentLayerSize baseSize z ^ 2)
    ∧ (layersDrawn 5 5).map (fun z => (layerTiles 5 PyramidBase.SQUARE z).length)
        = [25, 9, 1, 1, 1] := by
  constructor
  · intro baseSize z
    have h1 : 1 ≤ currentLayerSize baseSize z := currentLayerSize_pos baseSize z
    have h2 : (layerTiles baseSize PyramidBase.SQUARE z).length
        = (currentLayerSize baseSize z).toNat * (currentLayerSize baseSize z).toNat := by
      unfold layerTiles
      simp [List.length_flatMap, Function.comp_def]
    have h3 : (((currentLayerSize baseSize z).toNat : Int)) = currentLayerSize baseSize z :=
      Int.toNat_of_nonneg (by omega)
    rw [h2, Nat.cast_mul, h3]
    ring
  · decide

/-- Claim C4: the shading function is exactly
`clamp(0,255, floor(c * (1 + p/100)))` on each channel independently,
and at the boundaries 255 shaded +20 stays 255 while 0 shaded -15
stays 0. -/
theorem C4_shading_law :
    (∀ c p : Rat, shadeChannel c p = specShadeChannel c p)
    ∧ (∀ r g b p : Rat, shadeRgb r g b p
        = (shadeChannel r p, shadeChannel g p, shadeChannel b p))
    ∧ shadeChannel 255 20 = 255
    ∧ shadeChannel 0 (-15) = 0 := by
  refine ⟨?_, fun r g b p => rfl, by norm_num [shadeChannel], by norm_num [shadeChannel]⟩
  intro c p
  unfold shadeChannel specShadeChannel
  omega

/-- Claim C5, as stated, is false: the stroke style is set once to
`shadeColor(base, -10)` and reused for all three faces, and for the grey
base (100,100,100) the right face is filled (85,85,85) but stroked
(90,90,90) — the stroke is lighter than that face's own shaded color,
not a darker shade of it. -/
theorem C5_counterexample :
    (drawCube 5 0 0 0 100 100 100).map faceFill
        = [(120, 120, 120), (85, 85, 85), (95, 95, 95)]
    ∧ (drawCube 5 0 0 0 100 100 100).map faceStroke
        = [(90, 90, 90), (90, 90, 90), (90, 90, 90)]
    ∧ (90 : Int) > 85 := by
  refine ⟨?_, ?_, by norm_num⟩
  · norm_num [drawCube, shadeRgb, shadeChannel, faceFill]
  · norm_num [drawCube, shadeRgb, shadeChannel, faceStroke]

/-- Claim C5 amended: every cube's three faces are filled with the tile
color shaded +20% (top), -15% (right) and -5% (left), and all three are
outlined with a 1-unit stroke in the single color
`shadeColor(base, -10)` — a darker shade of the base tile color, set
once before the top face and reused for the right and left faces. -/
theorem C5_face_styles (bs x y : Rat) (z : Nat) (r g b : Rat) :
    (drawCube bs x y z r g b).map faceFill
        = [shadeRgb r g b 20, shadeRgb r g b (-15), shadeRgb r g b (-5)]
    ∧ (drawCube bs x y z r g b).map faceStroke
        = List.replicate 3 (shadeRgb r g b (-10))
    ∧ (drawCube bs x y z r g b).map faceWidth = List.replicate 3 1 := by
  refine ⟨?_, ?_, ?_⟩ <;>
    simp [drawCube, faceFill, faceStroke, faceWidth, List.replicate]

/-- Claim C6: with a Triangular base every drawn (x,y) pair satisfies
x ≤ y, and at baseSize = 4, z = 0 exactly the 10 upper-triangular cells
of the 4×4 grid are drawn, in draw order. -/
theorem C6_triangular_mask :
    (∀ (baseSize : Int) (z x y : Nat),
        (x, y) ∈ layerTiles baseSize PyramidBase.TRIANGULAR z → x ≤ y)
    ∧ layerTiles 4 PyramidBase.TRIANGULAR 0
        = [(0, 0), (0, 1), (0, 2), (0, 3), (1, 1), (1, 2), (1, 3),
           (2, 2), (2, 3), (3, 3)]
    ∧ (layerTiles 4 PyramidBase.TRIANGULAR 0).length = 10 := by
  refine ⟨?_, by decide, by decide⟩
  intro baseSize z x y h
  unfold layerTiles at h
  simp [List.mem_flatMap] at h
  obtain ⟨a, _, a1, _, hle, hx, hy⟩ := h
  omega

/-- Witness for C6: the drawn tile (1,3) of the triangular base layer
satisfies 1 ≤ 3. -/
theorem C6_triangular_mask_witness : (1 : Nat) ≤ 3 :=
  C6_triangular_mask.1 4 0 1 3 (by decide)

/-- Claim C7: for any pattern other than Rough Stone the renderer never
reads the random stream, so two invocations with identical parameters
and theme produce identical results (identical command lists and
identical encoded output). -/
theorem C7_determinism (ctxAvail : Bool) (p : Params) (isDark : Bool)
    (r1 r2 : Nat → Rat) (h : p.pattern ≠ TilePattern.STONE) :
    generateProceduralPyramid ctxAvail p isDark r1
      = generateProceduralPyramid ctxAvail p isDark r2 := by
  have hr : renderCommands p isDark r1 = renderCommands p isDark r2 := by
    unfold renderCommands
    congr 1
    congr 1
    funext kt
    rw [tileRgb_rand_free _ _ r1 r2 _ _ h]
  simp [generateProceduralPyramid, hr]

/-- Witness for C7: a Marble render at levels 5, baseSize 5 resolves to
the same result on two different random streams. -/
theorem C7_determinism_witness :
    generateProceduralPyramid true
        ⟨5, 5, "#3b82f6", TilePattern.MARBLE, PyramidBase.SQUARE⟩ false (fun _ => 0)
      = generateProceduralPyramid true
        ⟨5, 5, "#3b82f6", TilePattern.MARBLE, PyramidBase.SQUARE⟩ false (fun _ => 1 / 2) :=
  C7_determinism true ⟨5, 5, "#3b82f6", TilePattern.MARBLE, PyramidBase.SQUARE⟩ false
    (fun _ => 0) (fun _ => 1 / 2) (by decide)

/-- Claim C8: when no 2D context is available the renderer resolves the
empty-string sentinel having drawn nothing; otherwise it draws the full
command sequence and resolves its non-empty encoding — the embedding is
a total function, so no exception crosses the boundary in either
case. -/
theorem C8_failure_sentinel (p : Params) (isDark : Bool) (rand : Nat → Rat) :
    generateProceduralPyramid false p isDark rand = ⟨"", []⟩
    ∧ (generateProceduralPyramid true p isDark rand).drawn = renderCommands p isDark rand
    ∧ (generateProceduralPyramid true p isDark rand).output
        = encodePng (renderCommands p isDark rand)
    ∧ (generateProceduralPyramid true p isDark rand).output ≠ "" := by
  refine ⟨rfl, rfl, rfl, ?_⟩
  show encodePng (renderCommands p isDark rand) ≠ ""
  unfold encodePng
  intro hcontra
  have h2 := congrArg String.length hcontra
  rw [String.length_append] at h2
  have h3 : ("data:image/png;base64,").length = 22 := by decide
  have h4 : ("").length = 0 := by decide
  omega

/-- Witness for C8 at a concrete parameter set and stream. -/
theorem C8_failure_sentinel_witness :
    generateProceduralPyramid false
        ⟨2, 3, "#646464", TilePattern.MARBLE, PyramidBase.SQUARE⟩ false (fun _ => 0)
      = ⟨"", []⟩
    ∧ (generateProceduralPyramid true
        ⟨2, 3, "#646464", TilePattern.MARBLE, PyramidBase.SQUARE⟩ false (fun _ => 0)).drawn
      = renderCommands ⟨2, 3, "#646464", TilePattern.MARBLE, PyramidBase.SQUARE⟩ false (fun _ => 0)
    ∧ (generateProceduralPyramid true
        ⟨2, 3, "#646464", TilePattern.MARBLE, PyramidBase.SQUARE⟩ false (fun _ => 0)).output
      = encodePng (renderCommands ⟨2, 3, "#646464", TilePattern.MARBLE, PyramidBase.SQUARE⟩ false (fun _ => 0))
    ∧ (generateProceduralPyramid true
        ⟨2, 3, "#646464", TilePattern.MARBLE, PyramidBase.SQUARE⟩ false (fun _ => 0)).output ≠ "" :=
  C8_failure_sentinel ⟨2, 3, "#646464", TilePattern.MARBLE, PyramidBase.SQUARE⟩ false (fun _ => 0)

/-- Claim C9: for every baseSize in [3,20] the horizontal midpoint of
the base footprint, x = y = (baseSize-1)/2, projects to the canvas
horizontal center x = 512. -/
theorem C9_centering (baseSize : Rat) (_h3 : 3 ≤ baseSize) (_h20 : baseSize ≤ 20) :
    isoX baseSize ((baseSize - 1) / 2) ((baseSize - 1) / 2) = 512 := by
  simp [isoX, centerX, canvasSize]
  norm_num

/-- Witness for C9 at baseSize 5: the midpoint (2,2) projects to 512. -/
theorem C9_centering_witness : isoX 5 ((5 - 1) / 2) ((5 - 1) / 2) = 512 :=
  C9_centering 5 (by norm_num) (by norm_num)

/-- Claim C10: a tileColor that the hex regex does not match decodes to
the fallback grey (100,100,100), and the render proceeds exactly as if
the color had been the grey hex string. -/
theorem C10_hex_fallback (s : String) (p : Params) (isDark : Bool) (rand : Nat → Rat)
    (h : parseHexColor s = none) :
    hexToRgb s = ⟨100, 100, 100⟩
    ∧ generateProceduralPyramid true { p with tileColor := s } isDark rand
        = generateProceduralPyramid true { p with tileColor := ("#646464") } isDark rand := by
  have hg : hexToRgb s = ⟨100, 100, 100⟩ := by simp [hexToRgb, h]
  have hb : hexToRgb s = hexToRgb ("#646464") := by
    rw [hg]
    decide
  have hr : renderCommands { p with tileColor := s } isDark rand
      = renderCommands { p with tileColor := ("#646464") } isDark rand := by
    simp only [renderCommands, allTiles]
    rw [hb]
  exact ⟨hg, by simp [generateProceduralPyramid, hr]⟩

/-- Witness for C10 at the unparseable color string "blue". -/
theorem C10_hex_fallback_witness :
    hexToRgb ("blue") = ⟨100, 100, 100⟩
    ∧ generateProceduralPyramid true
        { Params.mk 2 3 "blue" TilePattern.MARBLE PyramidBase.SQUARE with tileColor := ("blue") }
        false (fun _ => 0)
      = generateProceduralPyramid true
        { Params.mk 2 3 "blue" TilePattern.MARBLE PyramidBase.SQUARE with tileColor := ("#646464") }
        false (fun _ => 0) :=
  C10_hex_fallback ("blue") (Params.mk 2 3 "blue" TilePattern.MARBLE PyramidBase.SQUARE)
    false (fun _ => 0) (by decide)

end PyraGen
